import Mathlib

/-!
Shallow embedding of `src/components/moderation/ban.ts` (the `Ban` moderation
component: `is_moderation_applied`, `ban_handler`, `unban_handler`) together
with the collaborator behaviour those handlers observe.

External collaborators (Discord API calls, the mongo collection, the command
object) are modelled by supplying their outcome in an environment record:
a call that can throw is an `Except Err _` field, a call that cannot is plain
data.  Each handler is then a total function from its environment to the list
of observable events it performs (replies, record registrations, backend
calls, sleep-list removals, staff-log posts, critical-error forwards), in
program order, plus (for unban) the post-state of the moderation collection.
-/

/-- A thrown JavaScript exception, abstracted to its description. -/
abbrev Err := String

/-- The `removed` / `expunged` sub-record of a moderation entry
(`moderation_entry.removed` in `moderation-common`): who reversed the
action, their display name, the reason and the time. -/
structure removed_info where
  moderator : String
  moderator_name : String
  reason : String
  timestamp : Nat
  deriving DecidableEq

/-- A moderation record as stored in `wheatley.database.moderations`
(`moderation_entry` of `moderation-common`, with the mongo-assigned `_id`
of `mongo.WithId`).  Fields exactly as built in `ban_handler`. -/
structure moderation_entry where
  _id : Nat
  case_number : Int
  user : String
  user_name : String
  moderator : String
  moderator_name : String
  type : String
  reason : Option String
  issued_at : Nat
  duration : Option Nat
  active : Bool
  removed : Option removed_info
  expunged : Option removed_info
  link : String
  deriving DecidableEq

/-- Result of a successful duration parse: the JS value is either `Infinity`
(indefinite) or a finite number of milliseconds. -/
inductive DurationResult where
  | indefinite
  | finite (ms : Nat)
  deriving DecidableEq

/-- Modelled from the spec: millisecond multiplier of a duration unit
character.  The duration grammar (spec 4.1) admits units at minimum
minute, hour, day, week; the parser itself is in `moderation-common.js`,
which is not among the provided sources. -/
def unit_ms : Char → Option Nat
  | 'm' => some 60000
  | 'h' => some 3600000
  | 'd' => some 86400000
  | 'w' => some 604800000
  | _ => none

/-- Modelled from the spec: parse one `integer + unit` duration string
(spec 4.1), returning the span in milliseconds, or `none` for a malformed
string. -/
def parse_duration_string (s : String) : Option Nat :=
  match s.data.getLast? with
  | none => none
  | some u =>
    match unit_ms u with
    | none => none
    | some mult =>
      match (String.mk s.data.dropLast).toNat? with
      | some n => some (n * mult)
      | none => none

/-- Modelled from the spec: `parse_nullable_duration` of
`moderation-common.js` (not among the provided sources).  Per spec 4.1 and
section 8: `Parse(null) = indefinite` (the no-expiry default), the sentinel
string for permanent parses to indefinite, a well-formed duration string
parses to a non-negative span, and a malformed string signals
`InvalidDuration`, here `none` (the JS function returns `null`, which
`ban_handler` tests with `duration_ms == null`). -/
def parse_nullable_duration (s : Option String) : Option DurationResult :=
  match s with
  | none => some DurationResult.indefinite
  | some str =>
    if str = "perm" then
      some DurationResult.indefinite
    else
      match parse_duration_string str with
      | some n => some (DurationResult.finite n)
      | none => none

/-- One observable side effect of a handler, in program order.
`reply_error` / `reply_success` are the replies sent to the issuing command
(`reply_with_error` / `reply_with_success_action`); `notify` is the
pre-action DM (`notify_user`); `register` is the record created by
`register_new_moderation` and `schedule` its sleep-list entry; `backend_unban`
is a `TCCPP.members.unban` call (`remove_moderation`); `sleep_remove` is
`sleep_list.remove`; `staff_log` is the staff-action-log post; `critical` is
a `critical_error` forward. -/
inductive Event where
  | reply_error (msg : String)
  | reply_success (action : String) (no_duration : Bool) (no_reason : Bool)
      (case_number : Option Int)
  | notify (user : String) (action : String)
  | register (entry : moderation_entry)
  | schedule (case_number : Int)
  | backend_unban (user : String)
  | sleep_remove (id : Nat)
  | staff_log (case_number : Int)
  | critical (e : Err)
  deriving DecidableEq

/-- Whether an event is a reply to the issuing command. -/
def Event.is_reply : Event → Bool
  | Event.reply_error _ => true
  | Event.reply_success _ _ _ _ => true
  | _ => false

/-- Number of replies sent to the issuing command in an event list. -/
def reply_count (evs : List Event) : Nat :=
  evs.countP Event.is_reply

/-- Whether an event is a forward to the `critical_error` sink. -/
def Event.is_critical : Event → Bool
  | Event.critical _ => true
  | _ => false

/-- `Ban.is_moderation_applied`: asserts the moderation's type is `"ban"`
(this component's type), then fetches the target's ban from
`TCCPP.bans.fetch`, returning `true` on success and `false` on any thrown
exception.  The fetch outcome is the argument: `Except.ok ()` means the
backend returned a ban, `Except.error e` means the fetch threw `e` (for any
reason).  The assert failing is a thrown exception, hence `Except.error`. -/
def is_moderation_applied (mod_type : String) (bans_fetch : Except Err Unit) :
    Except Err Bool :=
  if mod_type = "ban" then
    Except.ok (match bans_fetch with
      | Except.ok _ => true
      | Except.error _ => false)
  else
    Except.error "assertion failed: moderation.type == this.type"

/-- Environment of one `ban_handler` invocation: the command's arguments and
the outcome of each collaborator call the handler makes. -/
structure BanEnv where
  /-- `user.id` of the target. -/
  user_id : String
  /-- `user.displayName` of the target. -/
  user_display_name : String
  /-- Result of `wheatley.is_authorized_mod(user)`. -/
  user_is_authorized_mod : Bool
  /-- Outcome of `TCCPP.bans.fetch(user.id)` inside `is_moderation_applied`:
  `ok` if the backend reports a ban, `error` if the fetch threw. -/
  bans_fetch : Except Err Unit
  /-- The `duration` string option, `none` when absent. -/
  duration_string : Option String
  /-- The `reason` string option, `none` when absent. -/
  reason : Option String
  /-- `command.user.id` of the issuing moderator. -/
  command_user_id : String
  /-- Outcome of `command.get_member()`, yielding the moderator's
  `displayName`. -/
  get_member : Except Err String
  /-- `Date.now()`. -/
  now : Nat
  /-- `command.get_or_forge_url()`. -/
  command_url : String
  /-- Outcome of `register_new_moderation`, yielding the assigned case
  number.  Modelled from the spec: `register_new_moderation` is part of
  `ModerationComponent` in `moderation-common.js`, not among the provided
  sources; per spec 4.6 steps 5-7 it enforces, creates the record (assigning
  `case_id`) and, if the duration is finite, schedules expiry. -/
  register_result : Except Err Int

/-- The events `register_new_moderation` performs on success.  Modelled from
the spec (4.6 steps 6-7): the record is created with its assigned case
number, and expiry is scheduled exactly when the duration is finite. -/
def register_events (entry : moderation_entry) : List Event :=
  Event.register entry ::
    (match entry.duration with
     | some _ => [Event.schedule entry.case_number]
     | none => [])

/-- The `moderation_entry` object literal built in `ban_handler`:
`case_number` starts at `-1` (assigned by `register_new_moderation`), the
duration field is `null` when the parsed duration is `Infinity`
(`duration_ms == Infinity ? null : duration_ms`), the mongo `_id` is not
yet assigned (`0` here; no claim depends on it). -/
def ban_moderation_record (env : BanEnv) (moderator_name : String)
    (dur : DurationResult) : moderation_entry :=
  { _id := 0
    case_number := -1
    user := env.user_id
    user_name := env.user_display_name
    moderator := env.command_user_id
    moderator_name := moderator_name
    type := "ban"
    reason := env.reason
    issued_at := env.now
    duration :=
      match dur with
      | DurationResult.indefinite => none
      | DurationResult.finite n => some n
    active := true
    removed := none
    expunged := none
    link := env.command_url }

/-- The `try` block of `ban_handler`, transliterated: authorized-mod check,
`is_moderation_applied` duplicate check, `parse_nullable_duration`, record
construction, `notify_user`, `register_new_moderation`, success reply.
Returns the events performed and, when a collaborator threw, the exception
escaping to the `catch`. -/
def ban_try (env : BanEnv) : List Event × Option Err :=
  if env.user_is_authorized_mod then
    ([Event.reply_error "Cannot apply moderation to user"], none)
  else
    match is_moderation_applied "ban" env.bans_fetch with
    | Except.error e => ([], some e)
    | Except.ok true => ([Event.reply_error "User is already banned"], none)
    | Except.ok false =>
      match parse_nullable_duration env.duration_string with
      | none => ([Event.reply_error "Invalid duration"], none)
      | some dur =>
        match env.get_member with
        | Except.error e => ([], some e)
        | Except.ok moderator_name =>
          let moderation : moderation_entry :=
            ban_moderation_record env moderator_name dur
          match env.register_result with
          | Except.error e => ([Event.notify env.user_id "banned"], some e)
          | Except.ok c =>
            (Event.notify env.user_id "banned" ::
               register_events { moderation with case_number := c } ++
               [Event.reply_success "banned" env.duration_string.isNone
                  env.reason.isNone (some c)],
             none)

/-- The `catch` clause shared by both handlers: when the `try` block let an
exception escape, reply with the generic message and forward the exception
to `critical_error`. -/
def catch_events (generic_msg : String) (p : List Event × Option Err) :
    List Event :=
  match p.2 with
  | none => p.1
  | some e => p.1 ++ [Event.reply_error generic_msg, Event.critical e]

/-- `Ban.ban_handler`: the `try` block wrapped in the `catch` that replies
"Error banning" and forwards the exception to `critical_error`. -/
def ban_handler (env : BanEnv) : List Event :=
  catch_events "Error banning" (ban_try env)

/-- Membership test of `findOneAndUpdate`'s filter
`\x7b user: user.id, type: "ban", active: true \x7d`. -/
def unban_filter (u : String) (r : moderation_entry) : Prop :=
  r.user = u ∧ r.type = "ban" ∧ r.active = true

instance (u : String) (r : moderation_entry) : Decidable (unban_filter u r) :=
  inferInstanceAs (Decidable (_ ∧ _ ∧ _))

/-- `wheatley.database.moderations.findOneAndUpdate` with filter
`\x7b user, type: "ban", active: true \x7d`, update
`$set \x7b active: false, removed \x7d` and `returnDocument: "after"`:
the first matching record is updated in place and returned post-update;
with no match the collection is unchanged and `none` is returned.  The one
conditional update is the single point of serialization (spec 4.2). -/
def find_one_and_update_unban (store : List moderation_entry) (u : String)
    (rm : removed_info) : Option moderation_entry × List moderation_entry :=
  match store with
  | [] => (none, [])
  | r :: rest =>
    if unban_filter u r then
      (some { r with active := false, removed := some rm },
       { r with active := false, removed := some rm } :: rest)
    else
      ((find_one_and_update_unban rest u rm).1,
       r :: (find_one_and_update_unban rest u rm).2)

/-- Environment of one `unban_handler` invocation: the command's arguments,
the current moderation collection, and the outcome of each collaborator
call. -/
structure UnbanEnv where
  /-- `user.id` of the target. -/
  user_id : String
  /-- The required `reason` string. -/
  reason : String
  /-- `command.user.id` of the issuing moderator. -/
  command_user_id : String
  /-- Outcome of `command.get_member()`, yielding the moderator's
  `displayName`; awaited while building the `$set` document, before the
  database call. -/
  get_member : Except Err String
  /-- `Date.now()`. -/
  now : Nat
  /-- The moderation collection at the time of the `findOneAndUpdate`. -/
  db_store : List moderation_entry
  /-- When `some e`, the `findOneAndUpdate` call itself threw `e`. -/
  db_throws : Option Err
  /-- Outcome of `TCCPP.bans.fetch(user.id)` inside the post-update
  `is_moderation_applied` re-check. -/
  bans_fetch : Except Err Unit
  /-- Outcome of `TCCPP.members.unban` inside `remove_moderation`. -/
  unban_call : Except Err Unit
  /-- Outcome of `wheatley.client.users.fetch(res.user)`. -/
  users_fetch : Except Err Unit
  /-- Outcome of `channels.staff_action_log.send`. -/
  staff_send : Except Err Unit

/-- The `removed` sub-record `unban_handler` writes: the issuing moderator,
their display name, the caller's reason, and `Date.now()`. -/
def removed_of (env : UnbanEnv) (moderator_name : String) : removed_info :=
  { moderator := env.command_user_id
    moderator_name := moderator_name
    reason := env.reason
    timestamp := env.now }

/-- The `try` block of `unban_handler`, transliterated: build the `$set`
document (awaiting `get_member`), run the conditional `findOneAndUpdate`,
reply "User is not banned" when no document matched or the post-update
`is_moderation_applied` re-check says the ban is not applied, otherwise
`remove_moderation`, `sleep_list.remove`, success reply, staff-log post.
Returns the events, the post-call collection, and any escaping exception. -/
def unban_try (env : UnbanEnv) :
    List Event × List moderation_entry × Option Err :=
  match env.get_member with
  | Except.error e => ([], env.db_store, some e)
  | Except.ok mname =>
    match env.db_throws with
    | some e => ([], env.db_store, some e)
    | none =>
      match find_one_and_update_unban env.db_store env.user_id
          (removed_of env mname) with
      | (none, store1) =>
        ([Event.reply_error "User is not banned"], store1, none)
      | (some r, store1) =>
        match is_moderation_applied r.type env.bans_fetch with
        | Except.error e => ([], store1, some e)
        | Except.ok false =>
          ([Event.reply_error "User is not banned"], store1, none)
        | Except.ok true =>
          match env.unban_call with
          | Except.error e => ([Event.backend_unban r.user], store1, some e)
          | Except.ok _ =>
            match env.users_fetch with
            | Except.error e =>
              ([Event.backend_unban r.user, Event.sleep_remove r._id,
                Event.reply_success "unbanned" false false none],
               store1, some e)
            | Except.ok _ =>
              match env.staff_send with
              | Except.error e =>
                ([Event.backend_unban r.user, Event.sleep_remove r._id,
                  Event.reply_success "unbanned" false false none],
                 store1, some e)
              | Except.ok _ =>
                ([Event.backend_unban r.user, Event.sleep_remove r._id,
                  Event.reply_success "unbanned" false false none,
                  Event.staff_log r.case_number],
                 store1, none)

/-- `Ban.unban_handler`: the `try` block wrapped in the `catch` that replies
"Error unbanning" and forwards the exception to `critical_error`.  Returns
the event list and the post-invocation moderation collection. -/
def unban_handler (env : UnbanEnv) : List Event × List moderation_entry :=
  match unban_try env with
  | (evs, store1, none) => (evs, store1)
  | (evs, store1, some e) =>
    (evs ++ [Event.reply_error "Error unbanning", Event.critical e], store1)

/-- A concrete ban invocation against a target the backend reports as
already banned (the ban fetch succeeds). -/
def env_c1 : BanEnv :=
  { user_id := "U1"
    user_display_name := "User One"
    user_is_authorized_mod := false
    bans_fetch := Except.ok ()
    duration_string := some "1h"
    reason := some "spam"
    command_user_id := "M1"
    get_member := Except.ok "Mod One"
    now := 1000
    command_url := "url1"
    register_result := Except.ok 2 }

/-- A concrete ban invocation with a malformed duration string against a
target the backend reports as already banned. -/
def env_c5 : BanEnv :=
  { user_id := "U2"
    user_display_name := "User Two"
    user_is_authorized_mod := false
    bans_fetch := Except.ok ()
    duration_string := some "oops"
    reason := none
    command_user_id := "M1"
    get_member := Except.ok "Mod One"
    now := 1001
    command_url := "url2"
    register_result := Except.ok 3 }

/-- A concrete ban invocation with an absent duration against a target the
backend reports as not banned (the ban fetch throws "Unknown Ban"). -/
def env_c6a : BanEnv :=
  { user_id := "U3"
    user_display_name := "User Three"
    user_is_authorized_mod := false
    bans_fetch := Except.error "Unknown Ban"
    duration_string := none
    reason := some "spam"
    command_user_id := "M1"
    get_member := Except.ok "Mod One"
    now := 1002
    command_url := "url3"
    register_result := Except.ok 7 }

/-- A concrete ban invocation with a malformed duration string against a
target the backend reports as not banned. -/
def env_c6b : BanEnv :=
  { user_id := "U4"
    user_display_name := "User Four"
    user_is_authorized_mod := false
    bans_fetch := Except.error "Unknown Ban"
    duration_string := some "yesterday"
    reason := none
    command_user_id := "M1"
    get_member := Except.ok "Mod One"
    now := 1003
    command_url := "url4"
    register_result := Except.ok 8 }

/-- A concrete ban invocation in which `register_new_moderation` throws. -/
def env_c8a : BanEnv :=
  { user_id := "U9"
    user_display_name := "User Nine"
    user_is_authorized_mod := false
    bans_fetch := Except.error "Unknown Ban"
    duration_string := none
    reason := some "spam"
    command_user_id := "M1"
    get_member := Except.ok "Mod One"
    now := 1004
    command_url := "url5"
    register_result := Except.error "database down" }

/-- An active ban record for target "U5". -/
def entry_u5 : moderation_entry :=
  { _id := 11
    case_number := 42
    user := "U5"
    user_name := "User Five"
    moderator := "M0"
    moderator_name := "Mod Zero"
    type := "ban"
    reason := some "spam"
    issued_at := 500
    duration := some 3600000
    active := true
    removed := none
    expunged := none
    link := "url0" }

/-- The `removed` sub-record written by the concrete unban invocations
below (moderator "M1", reason "appeal", at time 2000). -/
def removed_u5 : removed_info :=
  { moderator := "M1"
    moderator_name := "Mod One"
    reason := "appeal"
    timestamp := 2000 }

/-- `entry_u5` after the conditional update flips it. -/
def entry_u5_removed : moderation_entry :=
  { entry_u5 with active := false, removed := some removed_u5 }

/-- A concrete unban invocation of target "U5" whose store holds one active
ban record, every collaborator call succeeding. -/
def env_c2 : UnbanEnv :=
  { user_id := "U5"
    reason := "appeal"
    command_user_id := "M1"
    get_member := Except.ok "Mod One"
    now := 2000
    db_store := [entry_u5]
    db_throws := none
    bans_fetch := Except.ok ()
    unban_call := Except.ok ()
    users_fetch := Except.ok ()
    staff_send := Except.ok () }

/-- A concrete unban invocation of target "U5" whose store holds only an
already-inactive record for that target: no active record matches. -/
def env_c3 : UnbanEnv :=
  { env_c2 with db_store := [{ entry_u5 with active := false }] }

/-- A concrete unban invocation of target "U5" with an active record in the
store but a backend that reports no ban (the ban fetch throws): a
record/backend mismatch. -/
def env_c4 : UnbanEnv :=
  { env_c2 with bans_fetch := Except.error "Unknown Ban" }

/-- A concrete unban invocation succeeding up to the staff-log post, which
throws. -/
def env_c8b : UnbanEnv :=
  { env_c2 with staff_send := Except.error "send failed" }

/-- A concrete unban invocation succeeding up to the staff-log post, which
throws with a network error: the success reply has already been sent when
the `catch` sends the error reply. -/
def env_c10 : UnbanEnv :=
  { env_c2 with staff_send := Except.error "network error" }

/-- When no record in the collection matches the filter, the conditional
update finds nothing and leaves the collection unchanged. -/
theorem find_unban_of_no_match (u : String) (rm : removed_info) :
    ∀ store : List moderation_entry,
      (∀ x ∈ store, ¬ unban_filter u x) →
      find_one_and_update_unban store u rm = (none, store) := by
  intro store
  induction store with
  | nil => intro _; rfl
  | cons r rest ih =>
    intro h
    have hr : ¬ unban_filter u r := h r (List.mem_cons_self r rest)
    have hrest := ih (fun x hx => h x (List.mem_cons_of_mem r hx))
    simp only [find_one_and_update_unban, if_neg hr, hrest]

/-- When the conditional update returns a document, the collection
decomposes as a prefix of non-matching records, the first matching record
flipped to `active = false` with the `removed` sub-record set, and an
untouched suffix: exactly one record changed. -/
theorem find_unban_of_match (u : String) (rm : removed_info) :
    ∀ (store store' : List moderation_entry) (r : moderation_entry),
      find_one_and_update_unban store u rm = (some r, store') →
      ∃ pre r0 post,
        store = pre ++ r0 :: post ∧
        unban_filter u r0 ∧
        (∀ x ∈ pre, ¬ unban_filter u x) ∧
        r = { r0 with active := false, removed := some rm } ∧
        store' = pre ++ r :: post := by
  intro store
  induction store with
  | nil =>
    intro store' r h
    simp [find_one_and_update_unban] at h
  | cons hd tl ih =>
    intro store' r h
    by_cases hc : unban_filter u hd
    · simp only [find_one_and_update_unban, if_pos hc, Prod.mk.injEq,
        Option.some.injEq] at h
      refine ⟨[], hd, tl, rfl, hc,
        fun x hx => absurd hx (List.not_mem_nil x), h.1.symm, ?_⟩
      rw [List.nil_append, ← h.2, h.1]
    · rcases hfw : find_one_and_update_unban tl u rm with ⟨res, rest'⟩
      simp only [find_one_and_update_unban, if_neg hc, hfw,
        Prod.mk.injEq] at h
      obtain ⟨pre, r0, post, htl, hf, hpre, hr, hstore⟩ :=
        ih rest' r (by rw [hfw, h.1])
      refine ⟨hd :: pre, r0, post, by rw [htl]; rfl, hf, ?_, hr, ?_⟩
      · intro x hx
        rcases List.mem_cons.mp hx with hx | hx
        · exact hx ▸ hc
        · exact hpre x hx
      · rw [← h.2, hstore]; rfl


/-- C1: when the enforcement backend reports the target as already banned
(the ban fetch succeeds) and the target is not an authorized mod, a second
ban issue replies with exactly the `AlreadyApplied` error ("User is already
banned"): no record is registered, no notification is sent, no expiry is
scheduled. -/
theorem C1_second_ban_rejected (env : BanEnv)
    (hauth : env.user_is_authorized_mod = false)
    (happlied : env.bans_fetch = Except.ok ()) :
    ban_handler env = [Event.reply_error "User is already banned"] ∧
    (∀ entry, Event.register entry ∉ ban_handler env) ∧
    (∀ u a, Event.notify u a ∉ ban_handler env) ∧
    (∀ c, Event.schedule c ∉ ban_handler env) := by
  have h : ban_handler env = [Event.reply_error "User is already banned"] := by
    simp [ban_handler, ban_try, catch_events, is_moderation_applied, hauth,
      happlied]
  exact ⟨h, fun entry => by simp [h], fun u a => by simp [h],
    fun c => by simp [h]⟩

/-- Witness for C1 at the concrete environment `env_c1`. -/
theorem C1_second_ban_rejected_witness :
    ban_handler env_c1 = [Event.reply_error "User is already banned"] :=
  (C1_second_ban_rejected env_c1 rfl rfl).1

/-- C5 as stated fails on the code: in `ban_handler` the
`is_moderation_applied` duplicate check runs before the duration parse, so
a ban request with a malformed duration ("oops") against an already-banned
target replies "User is already banned" (`AlreadyApplied`), and no
"Invalid duration" (`InvalidDuration`) reply is sent. -/
theorem C5_counterexample_applied_check_first :
    ban_handler env_c5 = [Event.reply_error "User is already banned"] ∧
    Event.reply_error "Invalid duration" ∉ ban_handler env_c5 := by
  constructor
  · decide
  · decide

/-- C5 (amended): in `ban_handler` the `IsEffectivelyApplied` duplicate
check (step 3) runs before the duration parse (step 2), so for every ban
request with a malformed duration against a target the backend reports as
already banned, the reported failure is `AlreadyApplied` ("User is already
banned"), not `InvalidDuration`. -/
theorem C5_amended_applied_check_precedes_parse (env : BanEnv)
    (hauth : env.user_is_authorized_mod = false)
    (happlied : env.bans_fetch = Except.ok ())
    (_hmal : parse_nullable_duration env.duration_string = none) :
    ban_handler env = [Event.reply_error "User is already banned"] ∧
    Event.reply_error "Invalid duration" ∉ ban_handler env := by
  have h : ban_handler env = [Event.reply_error "User is already banned"] := by
    simp [ban_handler, ban_try, catch_events, is_moderation_applied, hauth,
      happlied]
  exact ⟨h, by simp [h]⟩

/-- Witness for the amended C5 at the concrete environment `env_c5`. -/
theorem C5_amended_witness :
    ban_handler env_c5 = [Event.reply_error "User is already banned"] :=
  (C5_amended_applied_check_precedes_parse env_c5 rfl rfl (by decide)).1

/-- C6: with an absent duration the parse yields the no-expiry default, the
operation is not rejected with `InvalidDuration`, and the created record's
`duration` field is the indefinite sentinel (`none`); with a malformed
duration string the operation is rejected with exactly the
`InvalidDuration` reply and no record is registered. -/
theorem C6_null_duration_default_malformed_rejected :
    (∀ (env : BanEnv) (m : String) (c : Int),
       env.user_is_authorized_mod = false →
       is_moderation_applied "ban" env.bans_fetch = Except.ok false →
       env.duration_string = none →
       env.get_member = Except.ok m →
       env.register_result = Except.ok c →
       ban_handler env =
         [Event.notify env.user_id "banned",
          Event.register
            { ban_moderation_record env m DurationResult.indefinite with
                case_number := c },
          Event.reply_success "banned" true env.reason.isNone (some c)] ∧
       ({ ban_moderation_record env m DurationResult.indefinite with
            case_number := c }).duration = none) ∧
    (∀ (env : BanEnv) (s : String),
       env.user_is_authorized_mod = false →
       is_moderation_applied "ban" env.bans_fetch = Except.ok false →
       env.duration_string = some s →
       parse_nullable_duration (some s) = none →
       ban_handler env = [Event.reply_error "Invalid duration"] ∧
       (∀ entry, Event.register entry ∉ ban_handler env)) := by
  constructor
  · intro env m c hauth happ hdur hmem hreg
    constructor
    · simp [ban_handler, ban_try, catch_events, register_events,
        parse_nullable_duration, ban_moderation_record, hauth, happ, hdur,
        hmem, hreg]
    · rfl
  · intro env s hauth happ hdur hmal
    have h : ban_handler env = [Event.reply_error "Invalid duration"] := by
      simp [ban_handler, ban_try, catch_events, hauth, happ, hdur, hmal]
    exact ⟨h, fun entry => by simp [h]⟩

/-- Witness for C6 at the concrete environments `env_c6a` (absent duration,
record created with indefinite duration) and `env_c6b` (malformed duration,
rejected). -/
theorem C6_witness :
    ban_handler env_c6a =
      [Event.notify "U3" "banned",
       Event.register
         { ban_moderation_record env_c6a "Mod One" DurationResult.indefinite
             with case_number := 7 },
       Event.reply_success "banned" true false (some 7)] ∧
    ban_handler env_c6b = [Event.reply_error "Invalid duration"] := by
  refine ⟨?_, ?_⟩
  · exact ((C6_null_duration_default_malformed_rejected.1 env_c6a "Mod One" 7
      rfl rfl rfl rfl rfl).1)
  · exact (C6_null_duration_default_malformed_rejected.2 env_c6b "yesterday"
      rfl rfl rfl (by decide)).1

/-- C9: `is_moderation_applied` maps every thrown exception of the backend
ban fetch — whatever the exception, not only a not-found condition — to
`false`, and returns an ordinary boolean for every fetch outcome: it never
propagates a backend error to its caller. -/
theorem C9_fetch_error_means_not_banned :
    (∀ err : Err,
       is_moderation_applied "ban" (Except.error err) = Except.ok false) ∧
    (∀ fetch : Except Err Unit,
       ∃ b : Bool, is_moderation_applied "ban" fetch = Except.ok b) := by
  constructor
  · intro err
    simp [is_moderation_applied]
  · intro fetch
    cases fetch with
    | ok u => exact ⟨true, by simp [is_moderation_applied]⟩
    | error e => exact ⟨false, by simp [is_moderation_applied]⟩

/-- Run of `unban_handler` when no active record matches: the conditional
update finds nothing, the handler replies "User is not banned" and the
collection is unchanged. -/
theorem unban_run_no_match (env : UnbanEnv) (m : String)
    (hmem : env.get_member = Except.ok m)
    (hdb : env.db_throws = none)
    (hnone : ∀ x ∈ env.db_store, ¬ unban_filter env.user_id x) :
    unban_handler env =
      ([Event.reply_error "User is not banned"], env.db_store) := by
  have hfind :=
    find_unban_of_no_match env.user_id (removed_of env m) env.db_store hnone
  simp [unban_handler, unban_try, hmem, hdb, hfind]

/-- Run of `unban_handler` when the conditional update flips a record but
the backend ban fetch throws (the re-check says not applied): the handler
replies "User is not banned" and keeps the updated collection. -/
theorem unban_run_mismatch (env : UnbanEnv) (m : String)
    (r : moderation_entry) (store1 : List moderation_entry) (err : Err)
    (hmem : env.get_member = Except.ok m)
    (hdb : env.db_throws = none)
    (hfind : find_one_and_update_unban env.db_store env.user_id
        (removed_of env m) = (some r, store1))
    (hfetch : env.bans_fetch = Except.error err) :
    unban_handler env = ([Event.reply_error "User is not banned"], store1) := by
  obtain ⟨pre, r0, post, _, hf, _, hr, _⟩ :=
    find_unban_of_match env.user_id (removed_of env m) env.db_store store1 r
      hfind
  obtain ⟨hu0, ht0, ha0⟩ := hf
  have ht : r.type = "ban" := by rw [hr]; exact ht0
  have happ : is_moderation_applied r.type env.bans_fetch =
      Except.ok false := by
    rw [ht, hfetch]; simp [is_moderation_applied]
  simp [unban_handler, unban_try, hmem, hdb, hfind, happ]

/-- Run of `unban_handler` on the full success path: backend unban,
sleep-list removal, success reply, staff-log post, updated collection. -/
theorem unban_run_success (env : UnbanEnv) (m : String)
    (r : moderation_entry) (store1 : List moderation_entry)
    (hmem : env.get_member = Except.ok m)
    (hdb : env.db_throws = none)
    (hfind : find_one_and_update_unban env.db_store env.user_id
        (removed_of env m) = (some r, store1))
    (happlied : env.bans_fetch = Except.ok ())
    (hunban : env.unban_call = Except.ok ())
    (husers : env.users_fetch = Except.ok ())
    (hstaff : env.staff_send = Except.ok ()) :
    unban_handler env =
      ([Event.backend_unban r.user, Event.sleep_remove r._id,
        Event.reply_success "unbanned" false false none,
        Event.staff_log r.case_number], store1) := by
  obtain ⟨pre, r0, post, _, hf, _, hr, _⟩ :=
    find_unban_of_match env.user_id (removed_of env m) env.db_store store1 r
      hfind
  obtain ⟨hu0, ht0, ha0⟩ := hf
  have ht : r.type = "ban" := by rw [hr]; exact ht0
  have happ : is_moderation_applied r.type env.bans_fetch =
      Except.ok true := by
    rw [ht, happlied]; simp [is_moderation_applied]
  simp [unban_handler, unban_try, hmem, hdb, hfind, happ, hunban, husers,
    hstaff]

/-- Run of `unban_handler` when everything succeeds except the staff-log
post, which throws: the success reply has already been sent, the `catch`
appends the generic error reply and the critical-error forward. -/
theorem unban_run_staff_send_fails (env : UnbanEnv) (m : String)
    (r : moderation_entry) (store1 : List moderation_entry) (e : Err)
    (hmem : env.get_member = Except.ok m)
    (hdb : env.db_throws = none)
    (hfind : find_one_and_update_unban env.db_store env.user_id
        (removed_of env m) = (some r, store1))
    (happlied : env.bans_fetch = Except.ok ())
    (hunban : env.unban_call = Except.ok ())
    (husers : env.users_fetch = Except.ok ())
    (hstaff : env.staff_send = Except.error e) :
    unban_handler env =
      ([Event.backend_unban r.user, Event.sleep_remove r._id,
        Event.reply_success "unbanned" false false none,
        Event.reply_error "Error unbanning", Event.critical e], store1) := by
  obtain ⟨pre, r0, post, _, hf, _, hr, _⟩ :=
    find_unban_of_match env.user_id (removed_of env m) env.db_store store1 r
      hfind
  obtain ⟨hu0, ht0, ha0⟩ := hf
  have ht : r.type = "ban" := by rw [hr]; exact ht0
  have happ : is_moderation_applied r.type env.bans_fetch =
      Except.ok true := by
    rw [ht, happlied]; simp [is_moderation_applied]
  simp [unban_handler, unban_try, hmem, hdb, hfind, happ, hunban, husers,
    hstaff]

/-- C2: a successful unban of a target with an active ban record goes
through the single conditional `findOneAndUpdate` keyed on `active = true`:
the store decomposes into a prefix of non-matching records, the first
matching (active) record — now flipped to `active = false` with the
`removed` sub-record carrying the caller's moderator identity, display
name, reason and timestamp — and an untouched suffix; the handler keeps
exactly that post-update store and removes the record's sleep-list
entry. -/
theorem C2_revoke_updates_record_and_cancels (env : UnbanEnv) (m : String)
    (r : moderation_entry) (store1 : List moderation_entry)
    (hmem : env.get_member = Except.ok m)
    (hdb : env.db_throws = none)
    (hfind : find_one_and_update_unban env.db_store env.user_id
        (removed_of env m) = (some r, store1))
    (happlied : env.bans_fetch = Except.ok ())
    (hunban : env.unban_call = Except.ok ())
    (husers : env.users_fetch = Except.ok ())
    (hstaff : env.staff_send = Except.ok ()) :
    (unban_handler env).2 = store1 ∧
    (∃ pre r0 post,
       env.db_store = pre ++ r0 :: post ∧
       unban_filter env.user_id r0 ∧
       (∀ x ∈ pre, ¬ unban_filter env.user_id x) ∧
       r = { r0 with active := false, removed := some (removed_of env m) } ∧
       store1 = pre ++ r :: post) ∧
    r.active = false ∧
    r.removed = some { moderator := env.command_user_id
                       moderator_name := m
                       reason := env.reason
                       timestamp := env.now } ∧
    Event.sleep_remove r._id ∈ (unban_handler env).1 := by
  have hrun := unban_run_success env m r store1 hmem hdb hfind happlied
    hunban husers hstaff
  obtain ⟨pre, r0, post, hds, hf, hpre, hr, hs⟩ :=
    find_unban_of_match env.user_id (removed_of env m) env.db_store store1 r
      hfind
  refine ⟨by rw [hrun], ⟨pre, r0, post, hds, hf, hpre, hr, hs⟩,
    by rw [hr], by rw [hr]; rfl, ?_⟩
  rw [hrun]
  simp

/-- Witness for C2 at the concrete environment `env_c2`: the store record
for "U5" is flipped with the removal sub-record set, and its sleep-list
entry removed. -/
theorem C2_witness :
    (unban_handler env_c2).2 = [entry_u5_removed] ∧
    Event.sleep_remove 11 ∈ (unban_handler env_c2).1 := by
  have h := C2_revoke_updates_record_and_cancels env_c2 "Mod One"
    entry_u5_removed [entry_u5_removed] rfl rfl (by decide) rfl rfl rfl rfl
  exact ⟨h.1, h.2.2.2.2⟩

/-- C3: an unban of a target with no active ban record in the store replies
with exactly the `NotCurrentlyActive` error ("User is not banned"), leaves
the store unchanged, and performs no enforcement-backend removal
(`remove_moderation` is never invoked). -/
theorem C3_revoke_without_active_record (env : UnbanEnv) (m : String)
    (hmem : env.get_member = Except.ok m)
    (hdb : env.db_throws = none)
    (hnone : ∀ x ∈ env.db_store, ¬ unban_filter env.user_id x) :
    (unban_handler env).1 = [Event.reply_error "User is not banned"] ∧
    (unban_handler env).2 = env.db_store ∧
    (∀ u, Event.backend_unban u ∉ (unban_handler env).1) := by
  have hrun := unban_run_no_match env m hmem hdb hnone
  exact ⟨by rw [hrun], by rw [hrun], fun u => by rw [hrun]; simp⟩

/-- Witness for C3 at the concrete environment `env_c3` (only an inactive
record for the target). -/
theorem C3_witness :
    (unban_handler env_c3).1 = [Event.reply_error "User is not banned"] ∧
    (unban_handler env_c3).2 = env_c3.db_store :=
  ⟨(C3_revoke_without_active_record env_c3 "Mod One" rfl rfl (by decide)).1,
   (C3_revoke_without_active_record env_c3 "Mod One" rfl rfl (by decide)).2.1⟩

/-- C4: when the conditional update finds and flips an active record but the
backend ban fetch then throws (the re-check reports the ban not actually
applied), the handler reports the failure reply without rolling back: the
flipped record — `active = false`, `removed` sub-record set — stays in the
returned store, and no backend removal is attempted. -/
theorem C4_mismatch_reported_without_rollback (env : UnbanEnv) (m : String)
    (r : moderation_entry) (store1 : List moderation_entry) (err : Err)
    (hmem : env.get_member = Except.ok m)
    (hdb : env.db_throws = none)
    (hfind : find_one_and_update_unban env.db_store env.user_id
        (removed_of env m) = (some r, store1))
    (hfetch : env.bans_fetch = Except.error err) :
    (unban_handler env).1 = [Event.reply_error "User is not banned"] ∧
    (unban_handler env).2 = store1 ∧
    r ∈ (unban_handler env).2 ∧
    r.active = false ∧
    r.removed = some (removed_of env m) ∧
    (∀ u, Event.backend_unban u ∉ (unban_handler env).1) := by
  have hrun := unban_run_mismatch env m r store1 err hmem hdb hfind hfetch
  obtain ⟨pre, r0, post, _, _, _, hr, hs⟩ :=
    find_unban_of_match env.user_id (removed_of env m) env.db_store store1 r
      hfind
  refine ⟨by rw [hrun], by rw [hrun], ?_, by rw [hr], by rw [hr],
    fun u => by rw [hrun]; simp⟩
  rw [hrun, hs]
  simp

/-- Witness for C4 at the concrete environment `env_c4`: the mismatch is
reported and the flipped record remains in the store. -/
theorem C4_witness :
    (unban_handler env_c4).1 = [Event.reply_error "User is not banned"] ∧
    entry_u5_removed ∈ (unban_handler env_c4).2 := by
  have h := C4_mismatch_reported_without_rollback env_c4 "Mod One"
    entry_u5_removed [entry_u5_removed] "Unknown Ban" rfl rfl (by decide) rfl
  exact ⟨h.1, h.2.2.1⟩

/-- C7 as stated fails on the code: the record/backend-mismatch failure and
the no-active-record failure are reported with the identical message
"User is not banned" — `unban_handler` merges both into one branch
(`!res || !applied`) — so the mismatch reply does not distinguish the two.
`env_c3` has no active record, `env_c4` has an active record flipped by the
update while the backend reports no ban; their replies are equal. -/
theorem C7_counterexample_indistinct_messages :
    (unban_handler env_c3).1 = [Event.reply_error "User is not banned"] ∧
    (unban_handler env_c4).1 = [Event.reply_error "User is not banned"] ∧
    (unban_handler env_c4).1 = (unban_handler env_c3).1 := by
  exact ⟨by decide, by decide, by decide⟩

/-- C7 (amended): the record/backend-mismatch failure is surfaced to the
caller, but with the same message as the no-active-record failure: every
mismatch run replies exactly "User is not banned", equal to the reply of
every no-active-record run — the two failures are not distinguished. -/
theorem C7_amended_same_message (env1 env2 : UnbanEnv) (m1 m2 : String)
    (r : moderation_entry) (store1 : List moderation_entry) (err : Err)
    (hmem1 : env1.get_member = Except.ok m1)
    (hdb1 : env1.db_throws = none)
    (hnone : ∀ x ∈ env1.db_store, ¬ unban_filter env1.user_id x)
    (hmem2 : env2.get_member = Except.ok m2)
    (hdb2 : env2.db_throws = none)
    (hfind : find_one_and_update_unban env2.db_store env2.user_id
        (removed_of env2 m2) = (some r, store1))
    (hfetch : env2.bans_fetch = Except.error err) :
    (unban_handler env2).1 = [Event.reply_error "User is not banned"] ∧
    (unban_handler env2).1 = (unban_handler env1).1 := by
  have h1 := unban_run_no_match env1 m1 hmem1 hdb1 hnone
  have h2 := unban_run_mismatch env2 m2 r store1 err hmem2 hdb2 hfind hfetch
  rw [h1, h2]
  exact ⟨rfl, rfl⟩

/-- Witness for the amended C7 at the concrete environments `env_c3`
(no active record) and `env_c4` (mismatch). -/
theorem C7_amended_witness :
    (unban_handler env_c4).1 = [Event.reply_error "User is not banned"] ∧
    (unban_handler env_c4).1 = (unban_handler env_c3).1 :=
  C7_amended_same_message env_c3 env_c4 "Mod One" "Mod One" entry_u5_removed
    [entry_u5_removed] "Unknown Ban" rfl rfl (by decide) rfl rfl (by decide)
    rfl

/-- The events of `register_new_moderation` contain no critical-error
forward. -/
theorem register_events_critical_count (entry : moderation_entry) :
    (register_events entry).countP Event.is_critical = 0 := by
  cases hd : entry.duration <;>
    simp [register_events, hd, List.countP_cons, List.countP_nil,
      Event.is_critical]

/-- The `try` block of `ban_handler` forwards nothing to `critical_error`:
in every branch its event list contains no critical-error forward. -/
theorem ban_try_critical_count (env : BanEnv) :
    (ban_try env).1.countP Event.is_critical = 0 := by
  by_cases hauth : env.user_is_authorized_mod
  · simp [ban_try, hauth, List.countP_cons, List.countP_nil,
      Event.is_critical]
  · have hauth' : env.user_is_authorized_mod = false := by simpa using hauth
    rcases hf : env.bans_fetch with e | u
    · have happ : is_moderation_applied "ban" env.bans_fetch =
          Except.ok false := by
        rw [hf]; simp [is_moderation_applied]
      rcases hpar : parse_nullable_duration env.duration_string with _ | d
      · simp [ban_try, hauth', happ, hpar, List.countP_cons,
          List.countP_nil, Event.is_critical]
      · rcases hmem : env.get_member with e1 | m
        · simp [ban_try, hauth', happ, hpar, hmem, List.countP_nil]
        · rcases hreg : env.register_result with e1 | c
          · simp [ban_try, hauth', happ, hpar, hmem, hreg,
              List.countP_cons, List.countP_nil, Event.is_critical]
          · simp [ban_try, hauth', happ, hpar, hmem, hreg,
              List.countP_cons, List.countP_nil, List.countP_append,
              Event.is_critical, register_events_critical_count]
    · have happ : is_moderation_applied "ban" env.bans_fetch =
          Except.ok true := by
        rw [hf]; simp [is_moderation_applied]
      simp [ban_try, hauth', happ, List.countP_cons, List.countP_nil,
        Event.is_critical]

/-- The `try` block of `unban_handler` forwards nothing to `critical_error`:
in every branch its event list contains no critical-error forward. -/
theorem unban_try_critical_count (env : UnbanEnv) :
    (unban_try env).1.countP Event.is_critical = 0 := by
  rcases hmem : env.get_member with e | m
  · simp [unban_try, hmem, List.countP_nil]
  · rcases hdb : env.db_throws with _ | e0
    · rcases hfind : find_one_and_update_unban env.db_store env.user_id
        (removed_of env m) with ⟨_ | r, store1⟩
      · simp [unban_try, hmem, hdb, hfind, List.countP_cons,
          List.countP_nil, Event.is_critical]
      · by_cases ht : r.type = "ban"
        · rcases hf : env.bans_fetch with e1 | u1
          · have happ : is_moderation_applied r.type env.bans_fetch =
                Except.ok false := by
              rw [ht, hf]; simp [is_moderation_applied]
            simp [unban_try, hmem, hdb, hfind, happ, List.countP_cons,
              List.countP_nil, Event.is_critical]
          · have happ : is_moderation_applied r.type env.bans_fetch =
                Except.ok true := by
              rw [ht, hf]; simp [is_moderation_applied]
            rcases hub : env.unban_call with e1 | u1
            · simp [unban_try, hmem, hdb, hfind, happ, hub,
                List.countP_cons, List.countP_nil, Event.is_critical]
            · rcases huf : env.users_fetch with e1 | u2
              · simp [unban_try, hmem, hdb, hfind, happ, hub, huf,
                  List.countP_cons, List.countP_nil, Event.is_critical]
              · rcases hss : env.staff_send with e1 | u3
                · simp [unban_try, hmem, hdb, hfind, happ, hub, huf, hss,
                    List.countP_cons, List.countP_nil, Event.is_critical]
                · simp [unban_try, hmem, hdb, hfind, happ, hub, huf, hss,
                    List.countP_cons, List.countP_nil, Event.is_critical]
        · have happ : is_moderation_applied r.type env.bans_fetch =
              Except.error
                "assertion failed: moderation.type == this.type" := by
            simp [is_moderation_applied, ht]
          simp [unban_try, hmem, hdb, hfind, happ, List.countP_nil]
    · simp [unban_try, hmem, hdb, List.countP_nil]

/-- C8: for every environment in which the `try` block of `ban_handler` or
`unban_handler` lets an exception `e` escape — whatever collaborator threw
it and wherever in the block — the handler resolves to the events performed
so far followed by exactly the generic error reply ("Error banning" /
"Error unbanning", a constant not depending on `e`) and the forward of `e`
to `critical_error`; and that forward is the only critical-error forward of
the whole invocation. -/
theorem C8_unexpected_exception_generic_reply :
    (∀ (env : BanEnv) (e : Err),
       (ban_try env).2 = some e →
       ban_handler env =
         (ban_try env).1 ++
           [Event.reply_error "Error banning", Event.critical e] ∧
       (ban_handler env).countP Event.is_critical = 1) ∧
    (∀ (env : UnbanEnv) (e : Err),
       (unban_try env).2.2 = some e →
       (unban_handler env).1 =
         (unban_try env).1 ++
           [Event.reply_error "Error unbanning", Event.critical e] ∧
       ((unban_handler env).1).countP Event.is_critical = 1) := by
  constructor
  · intro env e h
    have heq : ban_handler env =
        (ban_try env).1 ++
          [Event.reply_error "Error banning", Event.critical e] := by
      simp [ban_handler, catch_events, h]
    refine ⟨heq, ?_⟩
    rw [heq]
    simp [List.countP_append, List.countP_cons, List.countP_nil,
      Event.is_critical, ban_try_critical_count]
  · intro env e h
    rcases hu : unban_try env with ⟨evs, store1, ex⟩
    rw [hu] at h
    have hex : ex = some e := h
    subst hex
    have heq : (unban_handler env).1 =
        evs ++ [Event.reply_error "Error unbanning", Event.critical e] := by
      simp [unban_handler, hu]
    have hcc := unban_try_critical_count env
    rw [hu] at hcc
    constructor
    · exact heq
    · rw [heq]
      simpa [List.countP_append, List.countP_cons, List.countP_nil,
        Event.is_critical] using hcc

/-- Witness for C8 at the concrete environments `env_c8a` (ban whose record
registration throws "database down") and `env_c8b` (unban whose staff-log
post throws "send failed"). -/
theorem C8_witness :
    ban_handler env_c8a =
      (ban_try env_c8a).1 ++
        [Event.reply_error "Error banning", Event.critical "database down"] ∧
    (unban_handler env_c8b).1 =
      (unban_try env_c8b).1 ++
        [Event.reply_error "Error unbanning",
         Event.critical "send failed"] :=
  ⟨(C8_unexpected_exception_generic_reply.1 env_c8a "database down"
      (by decide)).1,
   (C8_unexpected_exception_generic_reply.2 env_c8b "send failed"
      (by decide)).1⟩

/-- C10 as stated fails on the code: at `env_c10` the unban succeeds up to
the success reply, then the staff-log post throws; the `catch` sends an
additional error reply, so one invocation sends two replies — a success
reply and an error reply, not "never both". -/
theorem C10_counterexample_double_reply :
    reply_count (unban_handler env_c10).1 = 2 ∧
    Event.reply_success "unbanned" false false none ∈
      (unban_handler env_c10).1 ∧
    Event.reply_error "Error unbanning" ∈ (unban_handler env_c10).1 := by
  exact ⟨by decide, by decide, by decide⟩

/-- The events of `register_new_moderation` contain no reply. -/
theorem register_events_reply_count (entry : moderation_entry) :
    (register_events entry).countP Event.is_reply = 0 := by
  cases hd : entry.duration <;>
    simp [register_events, hd, List.countP_cons, List.countP_nil,
      Event.is_reply]

/-- Every `ban_handler` invocation sends exactly one reply: each branch of
the `try` block ends in exactly one reply when no exception escapes and in
none when one does, and the `catch` then adds exactly the generic error
reply. -/
theorem ban_handler_one_reply (env : BanEnv) :
    reply_count (ban_handler env) = 1 := by
  by_cases hauth : env.user_is_authorized_mod
  · simp [ban_handler, ban_try, catch_events, hauth, reply_count,
      List.countP_cons, List.countP_nil, Event.is_reply]
  · have hauth' : env.user_is_authorized_mod = false := by simpa using hauth
    rcases hf : env.bans_fetch with e | u
    · have happ : is_moderation_applied "ban" env.bans_fetch =
          Except.ok false := by
        rw [hf]; simp [is_moderation_applied]
      rcases hpar : parse_nullable_duration env.duration_string with _ | d
      · simp [ban_handler, ban_try, catch_events, hauth', happ, hpar,
          reply_count, List.countP_cons, List.countP_nil, Event.is_reply]
      · rcases hmem : env.get_member with e1 | m
        · simp [ban_handler, ban_try, catch_events, hauth', happ, hpar,
            hmem, reply_count, List.countP_cons, List.countP_nil,
            Event.is_reply]
        · rcases hreg : env.register_result with e1 | c
          · simp [ban_handler, ban_try, catch_events, hauth', happ, hpar,
              hmem, hreg, reply_count, List.countP_cons, List.countP_nil,
              Event.is_reply]
          · simp [ban_handler, ban_try, catch_events, hauth', happ, hpar,
              hmem, hreg, reply_count, List.countP_cons, List.countP_nil,
              List.countP_append, Event.is_reply,
              register_events_reply_count]
    · have happ : is_moderation_applied "ban" env.bans_fetch =
          Except.ok true := by
        rw [hf]; simp [is_moderation_applied]
      simp [ban_handler, ban_try, catch_events, hauth', happ, reply_count,
        List.countP_cons, List.countP_nil, Event.is_reply]

/-- Every `unban_handler` invocation sends either exactly one reply, or —
only when a collaborator throws after the success reply was already sent,
i.e. the users fetch or the staff-log post on the otherwise-successful
path — exactly two: its events are then exactly the backend unban, the
sleep-list removal, the success reply, the generic error reply and the
critical-error forward, in that order. -/
theorem unban_handler_reply_cases (env : UnbanEnv) :
    reply_count (unban_handler env).1 = 1 ∨
      (∃ u i e,
        env.unban_call = Except.ok () ∧
        (env.users_fetch = Except.error e ∨
          (env.users_fetch = Except.ok () ∧
           env.staff_send = Except.error e)) ∧
        (unban_handler env).1 =
          [Event.backend_unban u, Event.sleep_remove i,
           Event.reply_success "unbanned" false false none,
           Event.reply_error "Error unbanning", Event.critical e] ∧
        reply_count (unban_handler env).1 = 2) := by
  rcases hmem : env.get_member with e | m
  · left
    simp [unban_handler, unban_try, hmem, reply_count, List.countP_cons,
      List.countP_nil, Event.is_reply]
  · rcases hdb : env.db_throws with _ | e0
    · rcases hfind : find_one_and_update_unban env.db_store env.user_id
        (removed_of env m) with ⟨_ | r, store1⟩
      · left
        simp [unban_handler, unban_try, hmem, hdb, hfind, reply_count,
          List.countP_cons, List.countP_nil, Event.is_reply]
      · by_cases ht : r.type = "ban"
        · rcases hf : env.bans_fetch with e1 | u1
          · have happ : is_moderation_applied r.type env.bans_fetch =
                Except.ok false := by
              rw [ht, hf]; simp [is_moderation_applied]
            left
            simp [unban_handler, unban_try, hmem, hdb, hfind, happ,
              reply_count, List.countP_cons, List.countP_nil,
              Event.is_reply]
          · have happ : is_moderation_applied r.type env.bans_fetch =
                Except.ok true := by
              rw [ht, hf]; simp [is_moderation_applied]
            rcases hub : env.unban_call with e1 | u1
            · left
              simp [unban_handler, unban_try, hmem, hdb, hfind, happ, hub,
                reply_count, List.countP_cons, List.countP_nil,
                Event.is_reply]
            · cases u1
              rcases huf : env.users_fetch with e1 | u2
              · right
                refine ⟨r.user, r._id, e1, rfl, Or.inl rfl, ?_, ?_⟩ <;>
                  simp [unban_handler, unban_try, hmem, hdb, hfind, happ,
                    hub, huf, reply_count, List.countP_cons,
                    List.countP_nil, Event.is_reply]
              · cases u2
                rcases hss : env.staff_send with e1 | u3
                · right
                  refine ⟨r.user, r._id, e1, rfl, Or.inr ⟨rfl, rfl⟩,
                      ?_, ?_⟩ <;>
                    simp [unban_handler, unban_try, hmem, hdb, hfind, happ,
                      hub, huf, hss, reply_count, List.countP_cons,
                      List.countP_nil, Event.is_reply]
                · left
                  simp [unban_handler, unban_try, hmem, hdb, hfind, happ,
                    hub, huf, hss, reply_count, List.countP_cons,
                    List.countP_nil, Event.is_reply]
        · have happ : is_moderation_applied r.type env.bans_fetch =
              Except.error
                "assertion failed: moderation.type == this.type" := by
            simp [is_moderation_applied, ht]
          left
          simp [unban_handler, unban_try, hmem, hdb, hfind, happ,
            reply_count, List.countP_cons, List.countP_nil, Event.is_reply]
    · left
      simp [unban_handler, unban_try, hmem, hdb, reply_count,
        List.countP_cons, List.countP_nil, Event.is_reply]

/-- C10 (amended): every invocation of `ban_handler` and `unban_handler`
resolves without propagating an exception and sends at least one reply to
the issuing command; `ban_handler` sends exactly one, and `unban_handler`
sends exactly one except when an exception occurs after the success reply
was already sent — the users fetch or the staff-log post threw on the
otherwise-successful path — in which case it sends exactly two, the
success reply and then the generic error reply (its events are exactly
the backend unban, the sleep-list removal, the success reply, the error
reply and the critical-error forward, in that order). -/
theorem C10_amended_reply_counts (envB : BanEnv) (envU : UnbanEnv) :
    reply_count (ban_handler envB) = 1 ∧
    (reply_count (unban_handler envU).1 = 1 ∨
      (∃ u i e,
        envU.unban_call = Except.ok () ∧
        (envU.users_fetch = Except.error e ∨
          (envU.users_fetch = Except.ok () ∧
           envU.staff_send = Except.error e)) ∧
        (unban_handler envU).1 =
          [Event.backend_unban u, Event.sleep_remove i,
           Event.reply_success "unbanned" false false none,
           Event.reply_error "Error unbanning", Event.critical e] ∧
        reply_count (unban_handler envU).1 = 2)) :=
  ⟨ban_handler_one_reply envB, unban_handler_reply_cases envU⟩
